import Mathlib

/-!
Verification development for the BeMyNet marketplace backend
(commission calculation and payment-settlement engine).

The Python source keeps all money in `decimal.Decimal` (exact decimal
arithmetic at the scales involved), so monetary amounts and rates are
embedded as rationals (`ℚ`).  `Decimal.quantize(Decimal('0.01'))` under the
default context rounds half-to-even to two decimal places; it is embedded
as `quantize2` below.  Wall-clock fields (`date`, `last_purchase_date`)
and free-text logging are not modelled; every other field that the
embedded code reads or writes is.

Python truthiness matters in several places (`if commercial_id:`,
`if commercial.pourcentage:`, `x or Decimal('0.0')`): an `int` is falsy
exactly when it is 0, a `Decimal` exactly when it is 0, a string exactly
when it is empty, `None` always.  The helpers `intTruthy`, `ratTruthy`,
`strTruthy` and `pyOrQ` embed this.
-/

namespace BeMyNet

/-- Python `int` truthiness for an optional id (`None` and `0` are falsy). -/
def intTruthy : Option Nat → Bool
  | none => false
  | some n => n ≠ 0

/-- Python `Decimal` truthiness for an optional amount (`None` and `0` are falsy). -/
def ratTruthy : Option ℚ → Bool
  | none => false
  | some x => x ≠ 0

/-- Python `str` truthiness (`None` and `""` are falsy). -/
def strTruthy : Option String → Bool
  | none => false
  | some s => s ≠ ""

/-- Python `x or Decimal('0.0')` for an optional `Decimal` `x`. -/
def pyOrQ (a : Option ℚ) (b : ℚ) : ℚ :=
  match a with
  | none => b
  | some x => if x = 0 then b else x

/-- Round a rational to the nearest integer, ties to the even integer:
the rounding used by `Decimal.quantize` under Python's default context
(`ROUND_HALF_EVEN`). -/
def roundHalfEven (q : ℚ) : ℤ :=
  let n := ⌊q⌋
  if q - n < 1/2 then n
  else if q - n > 1/2 then n + 1
  else if n % 2 = 0 then n else n + 1

/-- `Decimal.quantize(Decimal('0.01'))`: round half-to-even to two decimals. -/
def quantize2 (q : ℚ) : ℚ :=
  (roundHalfEven (100 * q) : ℚ) / 100

/-!
## `app/utils/stripe.py`: `calculate_commissions_with_partners`

Direct embedding of `calculate_commissions_with_partners(amount, discount,
commercial_rate, partner_rate)` (src/app/utils/stripe.py, lines 257-308).
The function performs exact `Decimal` arithmetic and applies no rounding
and no clamping; the platform fee rate is the constant `Decimal('0.10')`.
The returned dict is embedded as a structure with one field per key.
-/

structure PartnerCommissions where
  gross_amount : ℚ
  discount : ℚ
  discounted_amount : ℚ
  platform_fee : ℚ
  platform_fee_rate : ℚ
  commercial_commission : ℚ
  commercial_rate : ℚ
  partner_commission : ℚ
  partner_rate : ℚ
  total_fees : ℚ
  net_amount : ℚ
deriving DecidableEq, Repr

def calculate_commissions_with_partners (amount : ℚ) (discount : ℚ := 0)
    (commercial_rate : Option ℚ := none) (partner_rate : Option ℚ := none) :
    PartnerCommissions :=
  let discounted_amount := amount - discount
  let platform_fee_rate : ℚ := 10/100
  let platform_fee := discounted_amount * platform_fee_rate
  -- `if commercial_rate:` — Python truthiness of an Optional[Decimal]
  let commercial_commission :=
    if ratTruthy commercial_rate then discounted_amount * commercial_rate.getD 0 else 0
  let partner_commission :=
    if ratTruthy partner_rate then discounted_amount * partner_rate.getD 0 else 0
  let total_fees := platform_fee + commercial_commission + partner_commission
  let net_amount := discounted_amount - total_fees
  { gross_amount := amount
    discount := discount
    discounted_amount := discounted_amount
    platform_fee := platform_fee
    platform_fee_rate := platform_fee_rate
    commercial_commission := commercial_commission
    commercial_rate := commercial_rate.getD 0
    partner_commission := partner_commission
    partner_rate := partner_rate.getD 0
    total_fees := total_fees
    net_amount := net_amount }

/-!
## `app/routes/sales_routes.py`: `calculate_commissions`

Direct embedding of the Flask-side `calculate_commissions(conn, montant,
commercial_id, partenaire_id)` (src/app/routes/sales_routes.py, lines
681-738).  The database connection is embedded as the two tables it reads:
`commerciaux` and `partenaires`, each a list of rows `(id, pourcentage)`
with a nullable percentage.  Each returned component is quantized to two
decimals (half-even) independently; the freelance share is the exact
residual computed before quantization.
-/

/-- One row of `commerciaux` or `partenaires`: `id` and nullable `pourcentage`. -/
structure Partie where
  id : Nat
  pourcentage : Option ℚ
deriving DecidableEq, Repr

/-- `SELECT pourcentage FROM <table> WHERE id = :id` followed by `fetchone()`:
`none` when no row matches, otherwise the (nullable) percentage. -/
def fetchPourcentage (table : List Partie) (i : Nat) : Option (Option ℚ) :=
  (table.find? (fun p => p.id = i)).map (·.pourcentage)

structure FlaskCommissions where
  plateforme : ℚ
  commerciale : ℚ
  partenaire : ℚ
  freelance : ℚ
deriving DecidableEq, Repr

def calculate_commissions (commerciaux partenaires : List Partie) (montant : ℚ)
    (commercial_id : Option Nat := none) (partenaire_id : Option Nat := none) :
    FlaskCommissions :=
  -- default rates
  let plateforme_rate : ℚ :=
    if intTruthy commercial_id && intTruthy partenaire_id then 8/100
    else if intTruthy commercial_id then 10/100
    else if intTruthy partenaire_id then 13/100
    else 15/100
  -- custom rate lookups; `if commercial and commercial.pourcentage:`
  let commerciale_rate : ℚ :=
    if intTruthy commercial_id then
      match fetchPourcentage commerciaux (commercial_id.getD 0) with
      | some (some p) => if p ≠ 0 then p / 100 else 5/100
      | _ => 5/100
    else 5/100
  let partenaire_rate : ℚ :=
    if intTruthy partenaire_id then
      match fetchPourcentage partenaires (partenaire_id.getD 0) with
      | some (some p) => if p ≠ 0 then p / 100 else 2/100
      | _ => 2/100
    else 2/100
  let commission_plateforme := montant * plateforme_rate
  let commission_commerciale := if intTruthy commercial_id then montant * commerciale_rate else 0
  let commission_partenaire := if intTruthy partenaire_id then montant * partenaire_rate else 0
  let montant_net_freelance :=
    montant - commission_plateforme - commission_commerciale - commission_partenaire
  { plateforme := quantize2 commission_plateforme
    commerciale := quantize2 commission_commerciale
    partenaire := quantize2 commission_partenaire
    freelance := quantize2 montant_net_freelance }

/-!
## Data model (`app/models/*.py`, `init_database.py`)

`statut_paiement` is the enum `('payé', 'en_attente', 'remboursé')` — the
sales table has no cancelled status.  `stripe_payment_id` is a plain
`VARCHAR(255)` with no uniqueness constraint.  Rows are embedded as
structures, tables as lists, and the database as one `AppState`; both the
FastAPI routers and the Flask routes write to the same tables.
-/

inductive Statut
  | paye
  | enAttente
  | rembourse
deriving DecidableEq, Repr

structure Client where
  id : Nat
  lifetime_value : Option ℚ
deriving DecidableEq, Repr

structure UserRec where
  id : Nat
  role : String
  total_revenue : Option ℚ
  stripe_account_id : Option String
  payout_enabled : Bool
  kyc_status : Option String
deriving DecidableEq, Repr

structure Produit where
  id : Nat
  actif : Bool
deriving DecidableEq, Repr

structure Vente where
  id : Nat
  user_id : Option Nat
  client_id : Option Nat
  produit_id : Option Nat
  montant : ℚ
  discount_applied : ℚ
  description : String
  source : String
  commission_plateforme : ℚ
  commission_commerciale : ℚ
  commission_partenaire : ℚ
  montant_net_freelance : ℚ
  commercial_id : Option Nat
  partenaire_id : Option Nat
  stripe_payment_id : Option String
  statut_paiement : Statut
  feedback : Option String
  invoice_id : Option Nat
deriving DecidableEq, Repr

structure Affiliation where
  source_type : String
  source_id : Nat
  vente_id : Nat
  commission : ℚ
deriving DecidableEq, Repr

structure AppState where
  users : List UserRec
  clients : List Client
  produits : List Produit
  commerciaux : List Partie
  partenaires : List Partie
  ventes : List Vente
  affiliations : List Affiliation
  nextVenteId : Nat
deriving DecidableEq, Repr

/-- Apply `f` to every row whose `id` matches (ids are unique, so this is
the single fetched ORM object being mutated and committed). -/
def updateClientById (l : List Client) (i : Nat) (f : Client → Client) : List Client :=
  l.map fun c => if c.id = i then f c else c

def updateUserById (l : List UserRec) (i : Nat) (f : UserRec → UserRec) : List UserRec :=
  l.map fun u => if u.id = i then f u else u

def updateVenteById (l : List Vente) (i : Nat) (f : Vente → Vente) : List Vente :=
  l.map fun v => if v.id = i then f v else v

def findClient (st : AppState) (i : Nat) : Option Client :=
  st.clients.find? (fun c => c.id = i)

def findUser (st : AppState) (i : Nat) : Option UserRec :=
  st.users.find? (fun u => u.id = i)

def findProduit (st : AppState) (i : Nat) : Option Produit :=
  st.produits.find? (fun p => p.id = i)

def findCommercial (st : AppState) (i : Nat) : Option Partie :=
  st.commerciaux.find? (fun p => p.id = i)

def findPartenaire (st : AppState) (i : Nat) : Option Partie :=
  st.partenaires.find? (fun p => p.id = i)

/-- The foreign keys of the `ventes` table (init_database.py lines 181-185;
models/sales.py lines 11-24): `user_id → users`, `client_id → clients`,
`produit_id → produits`, `commercial_id → commerciaux`,
`partenaire_id → partenaires`.  All five columns are nullable, so the
constraint fires exactly when a non-NULL value names no existing row; the
database then raises `IntegrityError` at the `INSERT`/commit. -/
def venteFkViolation (st : AppState)
    (user_id client_id produit_id commercial_id partenaire_id : Option Nat) : Bool :=
  (match user_id with | some i => (findUser st i).isNone | none => false)
  || (match client_id with | some i => (findClient st i).isNone | none => false)
  || (match produit_id with | some i => (findProduit st i).isNone | none => false)
  || (match commercial_id with | some i => (findCommercial st i).isNone | none => false)
  || (match partenaire_id with | some i => (findPartenaire st i).isNone | none => false)

/-- Errors surfaced by the FastAPI routers: `HTTPException`s raised by the
handlers, plus `serverError` for a database exception (such as the
`IntegrityError` of a violated foreign key at commit) that no handler
catches and that FastAPI turns into a 500 response. -/
inductive ApiErr
  | forbidden (detail : String)
  | notFound (detail : String)
  | badRequest (detail : String)
  | serverError (detail : String)
deriving DecidableEq, Repr

/-!
## `app/routers/sales.py`: `create_sale`, `update_sale`

`create_sale` (lines 22-146): after the ownership check it validates the
client, the product (existence and `actif`), resolves the optional
commercial and partner (404 when a referenced id does not exist; a party
with falsy `pourcentage` resolves to rate `None`), computes the breakdown
with `calculate_commissions_with_partners`, inserts the sale with status
`en_attente`, then increments `client.lifetime_value` by the gross
`montant` and `freelancer.total_revenue` by the freelancer net, and
finally inserts one affiliation per referral party present.

`update_sale` (lines 253-286): fetches the sale, checks ownership, then
copies every set field of the payload onto the row — there is no check on
the current status or on the requested transition.
-/

/-- `app/schemas/sales.py` `VenteCreate` (pydantic validates
`montant ≥ 0` and `discount_applied ≥ 0` at parse time). -/
structure VenteCreate where
  user_id : Nat
  client_id : Nat
  produit_id : Nat
  montant : ℚ
  discount_applied : Option ℚ := none
  description : Option String := none
  source : Option String := none
  commercial_id : Option Nat := none
  partenaire_id : Option Nat := none
deriving DecidableEq, Repr

def create_sale (st : AppState) (sale_data : VenteCreate)
    (currentUserId : Nat) (currentUserRole : String) :
    Except ApiErr (AppState × Vente) := do
  if sale_data.user_id ≠ currentUserId ∧ currentUserRole ≠ "admin" then
    throw (.forbidden "You can only create sales for your own account")
  let some client := findClient st sale_data.client_id
    | throw (.notFound "Client not found")
  let some product := findProduit st sale_data.produit_id
    | throw (.notFound "Product not found")
  if ¬ product.actif then
    throw (.badRequest "Product is not active")
  -- `commercial_rate = commercial.pourcentage / 100 if commercial.pourcentage else None`
  let commercial_rate : Option ℚ ←
    if intTruthy sale_data.commercial_id then
      match findCommercial st (sale_data.commercial_id.getD 0) with
      | none => throw (.notFound "Commercial not found")
      | some commercial =>
          pure (if ratTruthy commercial.pourcentage
                then some (commercial.pourcentage.getD 0 / 100) else none)
    else pure none
  let partner_rate : Option ℚ ←
    if intTruthy sale_data.partenaire_id then
      match findPartenaire st (sale_data.partenaire_id.getD 0) with
      | none => throw (.notFound "Partner not found")
      | some partner =>
          pure (if ratTruthy partner.pourcentage
                then some (partner.pourcentage.getD 0 / 100) else none)
    else pure none
  let commission_data := calculate_commissions_with_partners sale_data.montant
    (pyOrQ sale_data.discount_applied 0) commercial_rate partner_rate
  let new_sale : Vente :=
    { id := st.nextVenteId
      user_id := some sale_data.user_id
      client_id := some sale_data.client_id
      produit_id := some sale_data.produit_id
      montant := sale_data.montant
      discount_applied := pyOrQ sale_data.discount_applied 0
      description := sale_data.description.getD ""
      source := sale_data.source.getD ""
      commission_plateforme := commission_data.platform_fee
      commission_commerciale := commission_data.commercial_commission
      commission_partenaire := commission_data.partner_commission
      montant_net_freelance := commission_data.net_amount
      commercial_id := sale_data.commercial_id
      partenaire_id := sale_data.partenaire_id
      stripe_payment_id := none
      statut_paiement := .enAttente
      feedback := none
      invoice_id := none }
  -- db.add(new_sale); db.commit() — the ventes foreign keys are enforced
  -- here.  Client, product and truthy referral ids were existence-checked
  -- above, so a violation can only come from a missing user_id or from a
  -- referral id of 0 (falsy, hence never looked up, but inserted non-NULL);
  -- the IntegrityError is unhandled and surfaces as a 500, nothing persisted.
  if venteFkViolation st (some sale_data.user_id) (some sale_data.client_id)
      (some sale_data.produit_id) sale_data.commercial_id sale_data.partenaire_id then
    throw (.serverError "IntegrityError on INSERT INTO ventes")
  let st := { st with ventes := st.ventes ++ [new_sale], nextVenteId := st.nextVenteId + 1 }
  -- client.lifetime_value = (client.lifetime_value or 0) + sale_data.montant
  let clients' := updateClientById st.clients client.id
    (fun c => { c with lifetime_value := some (pyOrQ c.lifetime_value 0 + sale_data.montant) })
  let st := { st with clients := clients' }
  -- freelancer.total_revenue = (freelancer.total_revenue or 0) + net_amount
  let st :=
    match findUser st sale_data.user_id with
    | some freelancer =>
        let users' := updateUserById st.users freelancer.id
          (fun u =>
            let tr := some (pyOrQ u.total_revenue 0 + commission_data.net_amount)
            { u with total_revenue := tr })
        { st with users := users' }
    | none => st
  let st :=
    if intTruthy sale_data.commercial_id then
      { st with affiliations := st.affiliations ++
        [{ source_type := "commercial", source_id := sale_data.commercial_id.getD 0,
           vente_id := new_sale.id, commission := commission_data.commercial_commission }] }
    else st
  let st :=
    if intTruthy sale_data.partenaire_id then
      { st with affiliations := st.affiliations ++
        [{ source_type := "partenaire", source_id := sale_data.partenaire_id.getD 0,
           vente_id := new_sale.id, commission := commission_data.partner_commission }] }
    else st
  return (st, new_sale)

/-- `app/schemas/sales.py` `VenteUpdate`; `none` models an unset field
(`dict(exclude_unset=True)` skips it). -/
structure VenteUpdate where
  statut_paiement : Option Statut := none
  feedback : Option String := none
  stripe_payment_id : Option String := none
  invoice_id : Option Nat := none
deriving DecidableEq, Repr

def applyVenteUpdate (v : Vente) (u : VenteUpdate) : Vente :=
  { v with
    statut_paiement := u.statut_paiement.getD v.statut_paiement
    feedback := match u.feedback with | some f => some f | none => v.feedback
    stripe_payment_id :=
      match u.stripe_payment_id with | some s => some s | none => v.stripe_payment_id
    invoice_id := match u.invoice_id with | some i => some i | none => v.invoice_id }

def update_sale (st : AppState) (saleId : Nat) (sale_data : VenteUpdate)
    (currentUserId : Nat) (currentUserRole : String) : Except ApiErr AppState := do
  let some sale := st.ventes.find? (fun v => v.id = saleId)
    | throw (.notFound "Sale not found")
  if sale.user_id ≠ some currentUserId ∧ currentUserRole ≠ "admin" then
    throw (.forbidden "Not enough permissions")
  return { st with ventes := updateVenteById st.ventes saleId (fun v => applyVenteUpdate v sale_data) }

/-!
## `app/routers/stripe.py`: webhook and `handle_payment_success`

`handle_payment_success(payment_intent, db)` (lines 363-487):
1. reads `metadata`; an empty dict is falsy, so the handler returns at once;
2. extracts ids (`int(metadata.get(k, 0))` for the mandatory ones, `None`
   when `commercial_id`/`partenaire_id` are absent from the dict);
3. looks for an existing `Vente` with the same `stripe_payment_id`; if one
   exists it only refreshes its status to `payé` and returns;
4. otherwise it builds a `VenteCreate` (pydantic re-validates
   `montant ≥ 0`) and proceeds to create the sale — but this module never
   imports `Commercial`, `Partenaire`, `datetime` or `Affiliation`, so the
   creation path raises `NameError` before any row is written:
   at line 417 (`Commercial`) when a commercial id is present, at line 424
   (`Partenaire`) when a partner id is present, and otherwise at line 442
   (`datetime.utcnow()` inside the `Vente(...)` constructor).
The result is the state at the point the handler returned or raised,
paired with the exception, if any, that escaped.

The metadata dict is embedded as `Option PIMeta`: `none` is the empty
(falsy) dict; in a non-empty dict the mandatory keys carry the value
`int(metadata.get(k, 0))` and the optional keys are `none` exactly when
absent (`"commercial_id" in metadata`).
-/

structure PIMeta where
  freelance_id : Nat
  product_id : Nat
  client_id : Nat
  commercial_id : Option Nat
  partenaire_id : Option Nat
deriving DecidableEq, Repr

structure PaymentIntent where
  id : String
  /-- `payment_intent["amount"]`, in minor units (cents). -/
  amount : ℚ
  /-- `payment_intent.get("application_fee_amount", 0)`, in minor units. -/
  application_fee_amount : ℚ
  metadata : Option PIMeta
deriving DecidableEq, Repr

inductive PyErr
  /-- `NameError: name '<missing>' is not defined` (missing import). -/
  | nameError (missing : String)
  /-- pydantic `ValidationError` from `VenteCreate`. -/
  | validationError
deriving DecidableEq, Repr

def handle_payment_success (st : AppState) (payment_intent : PaymentIntent) :
    AppState × Option PyErr :=
  match payment_intent.metadata with
  | none => (st, none)  -- `if not metadata: return`
  | some md =>
    match st.ventes.find? (fun v => v.stripe_payment_id = some payment_intent.id) with
    | some existing_sale =>
      if existing_sale.statut_paiement ≠ .paye then
        let ventes' := updateVenteById st.ventes existing_sale.id
          (fun v => { v with statut_paiement := .paye })
        ({ st with ventes := ventes' }, none)
      else (st, none)
    | none =>
      -- amount = Decimal(payment_intent["amount"]) / 100
      let amount := payment_intent.amount / 100
      -- sale_data = VenteCreate(...): pydantic checks montant ≥ 0
      if amount < 0 then (st, some .validationError)
      -- commercial = db.query(Commercial)... : `Commercial` is not imported
      else if intTruthy md.commercial_id then (st, some (.nameError "Commercial"))
      -- partner = db.query(Partenaire)... : `Partenaire` is not imported
      else if intTruthy md.partenaire_id then (st, some (.nameError "Partenaire"))
      -- new_sale = Vente(..., date=datetime.utcnow(), ...) : `datetime` is not imported
      else (st, some (.nameError "datetime"))

/-- Stripe Connect account payload used by `handle_account_updated`. -/
structure Requirements where
  currently_due : List String
  disabled_reason : Option String
deriving DecidableEq, Repr

structure StripeAccount where
  id : String
  payouts_enabled : Bool
  requirements : Option Requirements
deriving DecidableEq, Repr

/-- `handle_account_updated(account, db)` (lines 489-511). -/
def handle_account_updated (st : AppState) (account : StripeAccount) : AppState :=
  match st.users.find? (fun u => u.stripe_account_id = some account.id) with
  | none => st
  | some user =>
    let kyc : Option String :=
      match account.requirements with
      | some r =>
        if r.currently_due ≠ [] then some "pending"
        else if strTruthy r.disabled_reason then some "rejected"
        else some "verified"
      | none => user.kyc_status
    let users' := updateUserById st.users user.id
      (fun u => { u with payout_enabled := account.payouts_enabled, kyc_status := kyc })
    { st with users := users' }

/-- An inbound event as produced by `verify_stripe_webhook`: the event type
dispatched on by the router. -/
inductive FAEvent
  | paymentIntentSucceeded (pi : PaymentIntent)
  | accountUpdated (account : StripeAccount)
  | otherEvent
deriving DecidableEq, Repr

inductive WebhookResp
  /-- `{"status": "success"}` with HTTP 200. -/
  | success
  /-- `{"status": "error", ...}` — still HTTP 200 (acknowledged). -/
  | errorAck
deriving DecidableEq, Repr

/-- `stripe_webhook` (lines 328-361).  Signature verification
(`verify_stripe_webhook`, an HMAC check performed by the Stripe library)
happens before anything touches the database; its outcome is therefore an
input: `.error` for an invalid payload or signature.  Every exception,
including verification failures and the handlers' `NameError`s, is caught
and acknowledged with `{"status": "error"}` over HTTP 200. -/
def stripe_webhook_fa (st : AppState) (verified : Except Unit FAEvent) :
    AppState × WebhookResp :=
  match verified with
  | .error _ => (st, .errorAck)
  | .ok event =>
    match event with
    | .paymentIntentSucceeded pi =>
      match handle_payment_success st pi with
      | (st', none) => (st', .success)
      | (st', some _) => (st', .errorAck)
    | .accountUpdated account => (handle_account_updated st account, .success)
    | .otherEvent => (st, .success)

/-!
## `app/routes/sales_routes.py`: Flask `create_sale`

`create_sale` (lines 260-459): no application-level existence check on
client, product, commercial or partner — it calls `calculate_commissions`
(which falls back to the default rates when a referenced row is missing),
then runs `INSERT INTO ventes` with the request's `statut_paiement`
(default `en_attente`) and one affiliation insert per truthy referral id,
at the already-quantized commission amounts, and commits.  The `INSERT`
is subject to the `ventes` foreign keys (`venteFkViolation`): a non-NULL
id naming no row raises `IntegrityError` at `conn.execute`
(sales_routes.py line 420), before the affiliation inserts and before
`conn.commit()`; the blanket `except` answers 500 and nothing is
persisted.  The route never touches `lifetime_value`/`total_revenue`.
-/

structure FlaskSaleReq where
  client_id : Nat
  montant : ℚ
  description : String
  produit_id : Option Nat := none
  discount_applied : ℚ := 0
  source : String := "manuel"
  statut_paiement : Statut := .enAttente
  commercial_id : Option Nat := none
  partenaire_id : Option Nat := none
deriving DecidableEq, Repr

def flask_create_sale (st : AppState) (userId : Nat) (req : FlaskSaleReq) :
    AppState × Nat :=
  let commissions :=
    calculate_commissions st.commerciaux st.partenaires req.montant
      req.commercial_id req.partenaire_id
  -- INSERT INTO ventes: the foreign keys reject a phantom id with
  -- IntegrityError; the route's `except Exception` answers 500, unpersisted.
  if venteFkViolation st (some userId) (some req.client_id) req.produit_id
      req.commercial_id req.partenaire_id then (st, 500)
  else
  let v : Vente :=
    { id := st.nextVenteId
      user_id := some userId
      client_id := some req.client_id
      produit_id := req.produit_id
      montant := req.montant
      discount_applied := req.discount_applied
      description := req.description
      source := req.source
      commission_plateforme := commissions.plateforme
      commission_commerciale := commissions.commerciale
      commission_partenaire := commissions.partenaire
      montant_net_freelance := commissions.freelance
      commercial_id := req.commercial_id
      partenaire_id := req.partenaire_id
      stripe_payment_id := none
      statut_paiement := req.statut_paiement
      feedback := none
      invoice_id := none }
  let st := { st with ventes := st.ventes ++ [v], nextVenteId := st.nextVenteId + 1 }
  let st :=
    if intTruthy req.commercial_id then
      { st with affiliations := st.affiliations ++
        [{ source_type := "commercial", source_id := req.commercial_id.getD 0,
           vente_id := v.id, commission := commissions.commerciale }] }
    else st
  let st :=
    if intTruthy req.partenaire_id then
      { st with affiliations := st.affiliations ++
        [{ source_type := "partenaire", source_id := req.partenaire_id.getD 0,
           vente_id := v.id, commission := commissions.partenaire }] }
    else st
  (st, 201)

/-!
## `app/routes/stripe_routes.py`: Flask webhook

`stripe_webhook` (lines 445-538).  When a `Stripe-Signature` header or a
configured secret is present, `stripe.Webhook.construct_event` verifies
the HMAC and raises on failure, answered with HTTP 400 before any database
work; when neither is present (development bypass) the payload is used
unverified.  A `checkout.session.completed` event is turned into a row of
`ventes` by `handle_checkout_session_completed` and inserted with status
`payé` — with no idempotency lookup of `stripe_payment_id`.  The insert is
subject to the same `ventes` foreign keys; on a violation the handler's
`except` logs the `IntegrityError` and still answers 200
(`Processed with error`), with nothing persisted.
-/

/-- The dict returned by `handle_checkout_session_completed`
(src/app/utils/stripe_utils.py, lines 193-244), holding the columns the
webhook inserts. -/
structure FlaskSessionData where
  client_id : Option Nat
  product_id : Option Nat
  freelance_id : Option Nat
  montant : ℚ
  commission_plateforme : ℚ
  stripe_payment_id : String
deriving DecidableEq, Repr

inductive FlaskEvent
  | checkoutSessionCompleted (session_data : FlaskSessionData)
  | otherEvent
deriving DecidableEq, Repr

def stripe_webhook_flask (st : AppState) (devBypass : Bool) (rawEvent : FlaskEvent)
    (verified : Except Unit FlaskEvent) : AppState × Nat :=
  match (if devBypass then Except.ok rawEvent else verified) with
  | .error _ => (st, 400)  -- invalid payload / invalid signature
  | .ok event =>
    match event with
    | .checkoutSessionCompleted sd =>
      -- INSERT INTO ventes: a foreign-key violation raises IntegrityError,
      -- caught and acknowledged with 200 before anything is committed
      if venteFkViolation st sd.freelance_id sd.client_id sd.product_id none none then
        (st, 200)
      else
      let v : Vente :=
        { id := st.nextVenteId
          user_id := sd.freelance_id
          client_id := sd.client_id
          produit_id := sd.product_id
          montant := sd.montant
          discount_applied := 0
          description := "Paiement via Stripe"
          source := "stripe"
          commission_plateforme := sd.commission_plateforme
          commission_commerciale := 0
          commission_partenaire := 0
          montant_net_freelance := 0
          commercial_id := none
          partenaire_id := none
          stripe_payment_id := some sd.stripe_payment_id
          statut_paiement := .paye
          feedback := none
          invoice_id := none }
      ({ st with ventes := st.ventes ++ [v], nextVenteId := st.nextVenteId + 1 }, 200)
    | .otherEvent => (st, 200)

/-!
## Canonical concrete states used by the theorems

`demoStateQ ltv rev` is a one-freelancer database: user 1 (freelance,
`total_revenue = rev`), client 2 (`lifetime_value = ltv`), active product 3,
commercial 4 with no configured `pourcentage`, commercial 5 at 5%, partner
6 at 2%, no sales yet. -/

def demoStateQ (ltv rev : ℚ) : AppState :=
  { users := [{ id := 1, role := "freelance", total_revenue := some rev,
                stripe_account_id := none, payout_enabled := false, kyc_status := none }]
    clients := [{ id := 2, lifetime_value := some ltv }]
    produits := [{ id := 3, actif := true }]
    commerciaux := [{ id := 4, pourcentage := none }, { id := 5, pourcentage := some 5 }]
    partenaires := [{ id := 6, pourcentage := some 2 }]
    ventes := []
    affiliations := []
    nextVenteId := 1 }

def demoState : AppState := demoStateQ 150 200

/-- A database holding one sale already settled by payment `pi_1`. -/
def paidSale : Vente :=
  { id := 1, user_id := some 1, client_id := some 2, produit_id := some 3
    montant := 100, discount_applied := 0
    description := "Payment for product ID: 3", source := "stripe"
    commission_plateforme := 10, commission_commerciale := 0
    commission_partenaire := 0, montant_net_freelance := 90
    commercial_id := none, partenaire_id := none
    stripe_payment_id := some "pi_1", statut_paiement := .paye
    feedback := none, invoice_id := none }

def paidState : AppState :=
  { demoState with ventes := [paidSale], nextVenteId := 2 }

/-- A database holding one manual sale of freelancer 1 in status `s`. -/
def saleInStatus (s : Statut) : AppState :=
  { demoState with
    ventes := [{ id := 1, user_id := some 1, client_id := some 2, produit_id := some 3
                 montant := 100, discount_applied := 0, description := "d", source := "manuel"
                 commission_plateforme := 15, commission_commerciale := 0
                 commission_partenaire := 0, montant_net_freelance := 85
                 commercial_id := none, partenaire_id := none, stripe_payment_id := none
                 statut_paiement := s, feedback := none, invoice_id := none }]
    nextVenteId := 2 }

/-- A first-time `payment_intent.succeeded` payload: reference `pi_1`,
100.00 in cents, metadata naming freelancer 1 / product 3 / client 2,
no referral parties. -/
def freshIntent : PaymentIntent :=
  { id := "pi_1", amount := 10000, application_fee_amount := 1000
    metadata := some { freelance_id := 1, product_id := 3, client_id := 2
                       commercial_id := none, partenaire_id := none } }

/-- A sale-creation request referencing commercial 4 (present in
`demoState` but with no configured `pourcentage`). -/
def rateLessReq : VenteCreate :=
  { user_id := 1, client_id := 2, produit_id := 3, montant := 100, commercial_id := some 4 }

/-- A plain sale-creation request with no referral parties. -/
def pendingReq (m : ℚ) : VenteCreate :=
  { user_id := 1, client_id := 2, produit_id := 3, montant := m }

/-- A sale-creation request referencing commercial 99, which exists in no
store. -/
def missingCommercialReq : VenteCreate :=
  { user_id := 1, client_id := 2, produit_id := 3, montant := 100, commercial_id := some 99 }

end BeMyNet

namespace BeMyNet

/-! ## Evaluation lemmas for the rounding function -/

theorem roundHalfEven_of_lt {q : ℚ} {n : ℤ} (hn : ⌊q⌋ = n) (h : q - n < 1/2) :
    roundHalfEven q = n := by
  unfold roundHalfEven
  rw [hn, if_pos h]

theorem roundHalfEven_of_half_even {q : ℚ} {n : ℤ} (hn : ⌊q⌋ = n) (h : q - n = 1/2)
    (he : n % 2 = 0) : roundHalfEven q = n := by
  unfold roundHalfEven
  rw [hn, if_neg (by rw [h]; norm_num), if_neg (by rw [h]; norm_num), if_pos he]

theorem roundHalfEven_intCast (n : ℤ) : roundHalfEven (n : ℚ) = n := by
  apply roundHalfEven_of_lt (Int.floor_intCast n)
  norm_num

/-- An amount that is an exact multiple of a cent is a fixed point of
`quantize2`; `n` is that number of cents. -/
theorem quantize2_of_mul_int (n : ℤ) {q : ℚ} (h : 100 * q = (n : ℚ)) : quantize2 q = q := by
  unfold quantize2
  rw [h, roundHalfEven_intCast]
  field_simp at h ⊢
  linarith

/-- Quantizing an amount that sits exactly half-way between two cents,
with the lower cent count `n` even, rounds down to `n` cents. -/
theorem quantize2_half_even {q : ℚ} {n : ℤ} (hf : ⌊100 * q⌋ = n) (h : 100 * q - n = 1/2)
    (he : n % 2 = 0) : quantize2 q = (n : ℚ) / 100 := by
  unfold quantize2
  rw [roundHalfEven_of_half_even hf h he]

/-! ## Small facts about the Python-truthiness helpers -/

theorem pyOrQ_some_zero (x : ℚ) : pyOrQ (some x) 0 = x := by
  simp only [pyOrQ]
  split <;> simp_all

theorem pyOrQ_none (b : ℚ) : pyOrQ none b = b := rfl

theorem intTruthy_none : intTruthy none = false := rfl

/-! ## Theorems for the spec claims -/

/-- Claim C1 (amended):  The sum invariant holds exactly for
`calculate_commissions_with_partners`: for every input, platform fee,
commercial commission and partner commission plus the freelancer net add
up to `gross - discount` to the minor unit — `net_amount` is computed as
the exact residual and no component is rounded, so the freelancer absorbs
any remainder and the platform never gains from rounding. -/
theorem C1_sum_invariant_with_partners (amount discount : ℚ)
    (commercial_rate partner_rate : Option ℚ) :
    (calculate_commissions_with_partners amount discount commercial_rate partner_rate).platform_fee
      + (calculate_commissions_with_partners amount discount commercial_rate partner_rate).commercial_commission
      + (calculate_commissions_with_partners amount discount commercial_rate partner_rate).partner_commission
      + (calculate_commissions_with_partners amount discount commercial_rate partner_rate).net_amount
      = amount - discount := by
  unfold calculate_commissions_with_partners
  dsimp only
  ring

/-- Claim C1 (counterexample):  The Flask `calculate_commissions` quantizes
each component independently (half-even), so the four returned components
need not sum to the sale amount: at `montant = 0.10` with a commercial
attached (default 5% rate), the breakdown is 0.01 + 0.00 + 0.00 + 0.08 =
0.09 ≠ 0.10 — a cent leaks out of the breakdown, refuting the exact-sum
claim for this implementation. -/
theorem C1_flask_rounding_leak :
    (calculate_commissions [] [] (1/10) (some 1) none).plateforme
      + (calculate_commissions [] [] (1/10) (some 1) none).commerciale
      + (calculate_commissions [] [] (1/10) (some 1) none).partenaire
      + (calculate_commissions [] [] (1/10) (some 1) none).freelance = 9/100
    ∧ (9 : ℚ)/100 ≠ 1/10 := by
  have h1 : quantize2 (1/100 : ℚ) = 1/100 := by apply quantize2_of_mul_int 1; norm_num
  have hc : quantize2 (1/200 : ℚ) = 0 := by
    rw [quantize2_half_even (n := 0) (by rw [Int.floor_eq_iff]; norm_num)
      (by norm_num) (by norm_num)]
    norm_num
  have hf : quantize2 (17/200 : ℚ) = 8/100 := by
    rw [quantize2_half_even (n := 8) (by rw [Int.floor_eq_iff]; norm_num)
      (by norm_num) (by norm_num)]
    norm_num
  have h0 : quantize2 (0 : ℚ) = 0 := by apply quantize2_of_mul_int 0; norm_num
  have hrec : calculate_commissions [] [] (1/10) (some 1) none
      = { plateforme := 1/100, commerciale := 0, partenaire := 0, freelance := 8/100 } := by
    simp only [calculate_commissions, intTruthy, fetchPourcentage]
    norm_num [FlaskCommissions.mk.injEq, h1, hc, hf, h0]
  rw [hrec]
  norm_num

/-- Claim C3 (counterexample):  `calculate_commissions_with_partners` — one
of the two commission calculators, the one used by the FastAPI
`create_sale` and checkout flows — charges a flat 10% platform fee
regardless of referral-party presence: with gross 100.00, no discount and
no parties its platform fee is 10.00, not the claimed 15.00. -/
theorem C3_flat_platform_rate :
    (calculate_commissions_with_partners 100 0 none none).platform_fee = 10
    ∧ (10 : ℚ) ≠ 15 := by
  constructor
  · simp only [calculate_commissions_with_partners]
    norm_num
  · norm_num

/-- Claim C3 (amended):  The presence-based tier table lives in the Flask
`calculate_commissions` and there behaves exactly as claimed; with a
commercial configured at 5% and a partner at 2% and amount 100.00:
no parties → platform 15.00; commercial only → 10.00/5.00/85.00;
partner only → 13.00/2.00/85.00; both → 8.00/5.00/2.00/85.00. -/
theorem C3_tier_selection_flask :
    calculate_commissions [⟨5, some 5⟩] [⟨6, some 2⟩] 100 none none
      = { plateforme := 15, commerciale := 0, partenaire := 0, freelance := 85 }
    ∧ calculate_commissions [⟨5, some 5⟩] [⟨6, some 2⟩] 100 (some 5) none
      = { plateforme := 10, commerciale := 5, partenaire := 0, freelance := 85 }
    ∧ calculate_commissions [⟨5, some 5⟩] [⟨6, some 2⟩] 100 none (some 6)
      = { plateforme := 13, commerciale := 0, partenaire := 2, freelance := 85 }
    ∧ calculate_commissions [⟨5, some 5⟩] [⟨6, some 2⟩] 100 (some 5) (some 6)
      = { plateforme := 8, commerciale := 5, partenaire := 2, freelance := 85 } := by
  have h0 : quantize2 (0 : ℚ) = 0 := by apply quantize2_of_mul_int 0; norm_num
  have h2 : quantize2 (2 : ℚ) = 2 := by apply quantize2_of_mul_int 200; norm_num
  have h5 : quantize2 (5 : ℚ) = 5 := by apply quantize2_of_mul_int 500; norm_num
  have h8 : quantize2 (8 : ℚ) = 8 := by apply quantize2_of_mul_int 800; norm_num
  have h10 : quantize2 (10 : ℚ) = 10 := by apply quantize2_of_mul_int 1000; norm_num
  have h13 : quantize2 (13 : ℚ) = 13 := by apply quantize2_of_mul_int 1300; norm_num
  have h15 : quantize2 (15 : ℚ) = 15 := by apply quantize2_of_mul_int 1500; norm_num
  have h85 : quantize2 (85 : ℚ) = 85 := by apply quantize2_of_mul_int 8500; norm_num
  refine ⟨?_, ?_, ?_, ?_⟩ <;>
    · simp only [calculate_commissions, intTruthy, fetchPourcentage]
      norm_num [FlaskCommissions.mk.injEq, h0, h2, h5, h8, h10, h13, h15, h85, List.find?]

/-- Claim C5 (counterexample):  No clamp is applied when the discount
exceeds the gross amount: `calculate_commissions_with_partners(50, 100)`
returns `discounted_amount = -50` (negative net), `platform_fee = -5` and
`net_amount = -45`, not the claimed all-zero breakdown. -/
theorem C5_no_discount_clamp :
    (calculate_commissions_with_partners 50 100 none none).discounted_amount = -50
    ∧ (calculate_commissions_with_partners 50 100 none none).platform_fee = -5
    ∧ (calculate_commissions_with_partners 50 100 none none).net_amount = -45
    ∧ ((-50 : ℚ) < 0) := by
  refine ⟨?_, ?_, ?_, by norm_num⟩ <;>
    · simp only [calculate_commissions_with_partners, ratTruthy]
      norm_num

/-- Claim C5 (amended):  The discounted amount is the raw difference
`gross - discount` with no floor at 0, so whenever the discount exceeds
the gross the net before split is strictly negative (and every component
is computed from that negative net). -/
theorem C5_net_is_unclamped_difference (amount discount : ℚ)
    (commercial_rate partner_rate : Option ℚ) :
    (calculate_commissions_with_partners amount discount commercial_rate partner_rate).discounted_amount
      = amount - discount
    ∧ (amount < discount →
        (calculate_commissions_with_partners amount discount commercial_rate partner_rate).discounted_amount < 0) := by
  refine ⟨rfl, fun h => ?_⟩
  show amount - discount < 0
  linarith

/-- Claim C5 witness. -/
theorem C5_net_is_unclamped_difference_witness :
    (calculate_commissions_with_partners 50 100 none none).discounted_amount = 50 - 100
    ∧ (calculate_commissions_with_partners 50 100 none none).discounted_amount < 0 :=
  ⟨(C5_net_is_unclamped_difference 50 100 none none).1,
   (C5_net_is_unclamped_difference 50 100 none none).2 (by norm_num)⟩

/-- Claim C6:  A provider event that fails signature/HMAC verification
causes no state mutation in either webhook: the FastAPI `stripe_webhook`
acknowledges with an error body and an unchanged database, and the Flask
`stripe_webhook` (when verification is performed, i.e. outside the
development bypass) answers 400 with an unchanged database. -/
theorem C6_invalid_signature_no_mutation :
    (∀ st : AppState, stripe_webhook_fa st (.error ()) = (st, .errorAck))
    ∧ (∀ (st : AppState) (raw : FlaskEvent),
        stripe_webhook_flask st false raw (.error ()) = (st, 400)) :=
  ⟨fun _ => rfl, fun _ _ => rfl⟩

/-- Claim C10:  A `payment_intent.succeeded` event whose payment intent
carries an empty metadata dict makes `handle_payment_success` return
immediately: the state is unchanged and no exception is raised, so no
Sale, affiliation, client or user row is created or modified. -/
theorem C10_empty_metadata_noop (st : AppState) (pi : PaymentIntent)
    (h : pi.metadata = none) :
    handle_payment_success st pi = (st, none) := by
  unfold handle_payment_success
  rw [h]

/-- Claim C10 witness. -/
theorem C10_empty_metadata_noop_witness :
    handle_payment_success demoState
      { id := "pi_1", amount := 10000, application_fee_amount := 0, metadata := none }
      = (demoState, none) :=
  C10_empty_metadata_noop demoState
    { id := "pi_1", amount := 10000, application_fee_amount := 0, metadata := none } rfl

/-- Claim C2 (code bug):  `routers/stripe.py` never imports `datetime`,
`Commercial`, `Partenaire` or `Affiliation`, so the sale-creation path of
`handle_payment_success` raises `NameError` before any row is written:
the first delivery of a success event for an unseen payment reference
(here `pi_1` against `demoState`, which has no sales) creates no Sale, no
affiliation, and mutates nothing — the webhook catches the exception and
acknowledges with an error body.  The replay branch does work: on a
database where `pi_1` is already bound to a paid sale the handler returns
success without touching anything.  So two deliveries produce zero paid
Sales, not the one the claim (and clearly the code's intent) requires. -/
theorem C2_first_settlement_raises_no_sale :
    handle_payment_success demoState freshIntent = (demoState, some (.nameError "datetime"))
    ∧ stripe_webhook_fa demoState (.ok (.paymentIntentSucceeded freshIntent))
        = (demoState, .errorAck)
    ∧ handle_payment_success paidState freshIntent = (paidState, none) := by
  have h1 : handle_payment_success demoState freshIntent
      = (demoState, some (.nameError "datetime")) := by
    simp only [handle_payment_success, demoState, demoStateQ, freshIntent, intTruthy]
    norm_num
  refine ⟨h1, ?_, ?_⟩
  · simp only [stripe_webhook_fa, h1]
  · simp only [handle_payment_success, paidState, paidSale, demoState, demoStateQ, freshIntent]
    norm_num

/-- Claim C4 (counterexample):  `update_sale` performs no state-machine
check: marking a `pending` (`en_attente`) sale `refunded` (`remboursé`)
succeeds instead of failing with a conflict/illegal-transition error. -/
theorem C4_pending_to_refunded_accepted :
    update_sale (saleInStatus .enAttente) 1 { statut_paiement := some .rembourse } 1 "freelance"
      = .ok (saleInStatus .rembourse) := rfl

/-- Claim C4 (amended):  `update_sale` copies whatever `statut_paiement` the
payload carries onto the sale with no transition validation: every status
change between `payé`, `en_attente` and `remboursé` — including backward
moves such as `payé → en_attente` and the skip `en_attente → remboursé` —
succeeds.  (There is no cancelled state at all: the sales enum is
`payé / en_attente / remboursé`.) -/
theorem C4_no_transition_guard (s s' : Statut) :
    update_sale (saleInStatus s) 1 { statut_paiement := some s' } 1 "admin"
      = .ok (saleInStatus s') := rfl

/-- Claim C7 (amended):  In the FastAPI `create_sale`, a referenced
commercial or partner id that resolves to no row makes sale creation fail
with a 404 NotFound, and the error return means no Sale, affiliation or
accumulator update is produced.  (The Flask create path has no such
application-level guard and fails differently — see the counterexample.) -/
theorem C7_missing_party_not_found (st : AppState) (d : VenteCreate) (uid : Nat)
    (role : String) (c : Client) (p : Produit)
    (hAuth : ¬(d.user_id ≠ uid ∧ role ≠ "admin"))
    (hc : findClient st d.client_id = some c)
    (hp : findProduit st d.produit_id = some p)
    (hact : p.actif = true) :
    (intTruthy d.commercial_id = true →
      findCommercial st (d.commercial_id.getD 0) = none →
      create_sale st d uid role = .error (.notFound "Commercial not found"))
    ∧ (d.commercial_id = none → intTruthy d.partenaire_id = true →
      findPartenaire st (d.partenaire_id.getD 0) = none →
      create_sale st d uid role = .error (.notFound "Partner not found")) := by
  constructor
  · intro hct hcm
    simp [create_sale, if_neg hAuth, hc, hp, hact, hct, hcm,
      Bind.bind, Except.bind, throw, throwThe, MonadExceptOf.throw, pure, Except.pure]
  · intro hcn hpt hpm
    simp [create_sale, if_neg hAuth, hc, hp, hact, hcn, hpt, hpm, intTruthy_none,
      Bind.bind, Except.bind, throw, throwThe, MonadExceptOf.throw, pure, Except.pure]

/-- Claim C7 witness. -/
theorem C7_missing_party_not_found_witness :
    create_sale demoState missingCommercialReq 1 "freelance"
      = .error (.notFound "Commercial not found") :=
  (C7_missing_party_not_found demoState missingCommercialReq 1 "freelance"
      ⟨2, some 150⟩ ⟨3, true⟩ (by simp [missingCommercialReq]) rfl rfl rfl).1
    rfl rfl

/-- Claim C7 (counterexample):  The Flask `create_sale` never performs the
claimed application-level NotFound check: with commercial id 99 absent
from every store, `calculate_commissions` silently falls back to the
default 5% rate and the phantom id reaches `INSERT INTO ventes`, where
the `commercial_id` foreign key rejects it with an `IntegrityError`; the
route's blanket `except` answers a generic 500.  No Sale and no
affiliation is persisted (the returned state is the unchanged
`demoState`), but the failure surfaced to the caller is a 500 server
error, not the NotFound the claim requires. -/
theorem C7_flask_phantom_commercial_500 :
    flask_create_sale demoState 1
        { client_id := 2, montant := 100, description := "d", commercial_id := some 99 }
      = (demoState, 500)
    ∧ (500 : Nat) ≠ 404 := by
  constructor
  · rfl
  · decide

/-- Claim C8 (counterexample):  In the Flask `calculate_commissions`, a
commercial that is referenced but has no configured percentage (row
present, `pourcentage` NULL) is charged at the *default* 5% rate, not 0:
on a 100.00 sale the commercial commission is 5.00. -/
theorem C8_default_rate_not_zero :
    (calculate_commissions [⟨1, none⟩] [] 100 (some 1) none).commerciale = 5
    ∧ (5 : ℚ) ≠ 0 := by
  have h5 : quantize2 (5 : ℚ) = 5 := by apply quantize2_of_mul_int 500; norm_num
  constructor
  · simp only [calculate_commissions, intTruthy, fetchPourcentage, List.find?]
    norm_num [h5]
  · norm_num

/-- Claim C8 (amended):  A referral party that exists but has no configured
percentage behaves differently in the two implementations.  FastAPI
`create_sale` (commercial 4 of `demoState`, `pourcentage` NULL): the rate
resolves to `None`, the party contributes a commission of 0, and the
platform fee is the flat 10% of the net (10.00 on 100.00).  Flask
`calculate_commissions`: the party's presence does select the tier
(platform 10% with a commercial present), but the party is charged the
default rate (5%), not 0. -/
theorem C8_rateless_party :
    (∃ st' v, create_sale demoState rateLessReq 1 "freelance" = .ok (st', v)
      ∧ v.commission_commerciale = 0 ∧ v.commission_plateforme = 10)
    ∧ (calculate_commissions [⟨1, none⟩] [] 100 (some 1) none).plateforme = 10
    ∧ (calculate_commissions [⟨1, none⟩] [] 100 (some 1) none).commerciale = 5 := by
  have h5 : quantize2 (5 : ℚ) = 5 := by apply quantize2_of_mul_int 500; norm_num
  have h10 : quantize2 (10 : ℚ) = 10 := by apply quantize2_of_mul_int 1000; norm_num
  refine ⟨?_, ?_, ?_⟩
  · refine ⟨_, _, rfl, ?_, ?_⟩ <;>
      norm_num [rateLessReq, ratTruthy, pyOrQ_none, calculate_commissions_with_partners]
  · simp only [calculate_commissions, intTruthy, fetchPourcentage, List.find?]
    norm_num [h10]
  · simp only [calculate_commissions, intTruthy, fetchPourcentage, List.find?]
    norm_num [h5]

/-- Claim C9 (counterexample):  Creating a sale that enters the pending
(`en_attente`) state *does* change both accumulators: on `demoState`
(client lifetime value 150, freelancer total revenue 200) a 100.00 manual
sale leaves a pending Sale while the client's lifetime value becomes 250
and the freelancer's total revenue becomes 290. -/
theorem C9_pending_creation_changes_accumulators :
    ∃ st' v, create_sale demoState (pendingReq 100) 1 "freelance" = .ok (st', v)
      ∧ v.statut_paiement = .enAttente
      ∧ demoState.clients.map Client.lifetime_value = [some 150]
      ∧ st'.clients.map Client.lifetime_value = [some 250]
      ∧ demoState.users.map UserRec.total_revenue = [some 200]
      ∧ st'.users.map UserRec.total_revenue = [some 290]
      ∧ (some (250 : ℚ) ≠ some 150) ∧ (some (290 : ℚ) ≠ some 200) := by
  refine ⟨_, _, rfl, rfl, rfl, ?_, rfl, ?_, by norm_num, by norm_num⟩
  · simp only [demoState, updateClientById, List.map, pyOrQ_some_zero, pendingReq]
    norm_num
  · simp only [demoState, updateUserById, List.map, pyOrQ_some_zero, pendingReq, pyOrQ_none,
      calculate_commissions_with_partners, ratTruthy]
    norm_num

/-- Claim C9 (amended):  The accumulators are incremented at `create_sale`
time, while the Sale is still `en_attente`: for any starting lifetime
value, total revenue and sale amount, creating the sale adds the gross
`m` to the client's lifetime value and the freelancer net
`m - m·10%` to the freelancer's total revenue, with the new Sale in the
pending state.  (Creation — not the transition to paid — is the increment
point; the webhook's refresh of an existing sale to `payé` passes through
`handle_payment_success`'s replay branch, which touches neither field.) -/
theorem C9_creation_increments_accumulators (ltv rev m : ℚ) :
    ∃ st' v, create_sale (demoStateQ ltv rev) (pendingReq m) 1 "freelance" = .ok (st', v)
      ∧ v.statut_paiement = .enAttente
      ∧ st'.clients.map Client.lifetime_value = [some (ltv + m)]
      ∧ st'.users.map UserRec.total_revenue = [some (rev + (m - m * (10/100)))] := by
  refine ⟨_, _, rfl, rfl, ?_, ?_⟩
  · simp only [updateClientById, List.map, pyOrQ_some_zero, pendingReq]
    norm_num
  · simp only [updateUserById, List.map, pyOrQ_some_zero, pendingReq, pyOrQ_none,
      calculate_commissions_with_partners, ratTruthy]
    norm_num

end BeMyNet
